import Mathlib

set_option autoImplicit false

/-!
Shallow embedding of the RAG agent service (`agent/service.go`) together with
its data model (`copilot` package types).  External collaborators — the
embedding service, the completion service, the filesystem and the crypto
primitives — are modelled as explicit function parameters, exactly at the
boundaries where the Go code calls out of the repository.  Everything that is
repository code (control flow of `ChatCompletion`, `generateCompletion`,
`validPayload`, and the structural decoding done by the Go standard library
on its behalf) is translated faithfully.
-/

/-- A chat message: a role (free-form string) and textual content.
Mirrors `copilot.ChatMessage`. -/
structure ChatMessage where
  role : String
  content : String
deriving DecidableEq, Repr

/-- Mirrors `copilot.ChatRequest`: the inbound conversation. -/
structure ChatRequest where
  messages : List ChatMessage
deriving DecidableEq, Repr

/-- One indexed document.  The embedding vector itself is opaque to the
service code under verification (only `embedding.FindBestDataset` looks at
it, and that call is modelled as an external function), so the dataset is
represented by its filename handle. -/
structure Dataset where
  filename : String
deriving DecidableEq, Repr

/-- Embedding vectors are opaque values produced and consumed only by the
external embedding collaborators. -/
abbrev Emb := List Int

/-- Mirrors `copilot.ChatCompletionsRequest`. -/
structure ChatCompletionsRequest where
  model : String
  messages : List ChatMessage
  stream : Bool
deriving DecidableEq, Repr

/-- The downstream completion response stream, as the `bufio.Scanner` loop
observes it: the sequence of scanned units, followed either by a clean
end of stream (`readErr = none`) or by a scanner error. -/
structure CompletionStream where
  units : List (List Nat)
  readErr : Option String
deriving DecidableEq, Repr

/-- The mutable singleton state of `agent.Service`: the `sync.Once` done
flag and the `datasets` slice (`[]` models Go's nil slice). -/
structure OnceState where
  done : Bool
  datasets : List Dataset
deriving DecidableEq, Repr

/-- External collaborators of `generateCompletion`, one field per out-of-scope
call site: `os.ReadDir "data"`, `embedding.GenerateDatasets`,
`embedding.Create`, `embedding.FindBestDataset`, `os.Open`+`io.ReadAll`,
and `copilot.ChatCompletions`. -/
structure Env where
  readDir : Except String (List String)
  generateDatasets : List String → Except String (List Dataset)
  create : String → Except String Emb
  findBestDataset : List Dataset → Emb → Except String (Option Dataset)
  readFile : String → Except String String
  chatCompletions : ChatCompletionsRequest → Except String CompletionStream

/-! ## Go standard-library structural decoding

`validPayload` relies on `encoding/base64` and `encoding/asn1` for the
structural part of signature checking; these are deterministic, fully
specified decoders and are translated concretely.  `sha256.Sum256` and
`ecdsa.Verify` are cryptographic primitives and stay abstract (function
parameters). -/

/-- Value of one standard-alphabet base64 character, `none` if the character
is not in the alphabet (`=` included: padding is handled by the caller). -/
def b64Val (c : Char) : Option Nat :=
  if 65 ≤ c.toNat ∧ c.toNat ≤ 90 then some (c.toNat - 65)
  else if 97 ≤ c.toNat ∧ c.toNat ≤ 122 then some (c.toNat - 97 + 26)
  else if 48 ≤ c.toNat ∧ c.toNat ≤ 57 then some (c.toNat - 48 + 52)
  else if c = '+' then some 62
  else if c = '/' then some 63
  else none

/-- Decode successive 4-character base64 quanta.  Padding (`=`) is accepted
only in the final quantum, in the shapes `xx==` and `xxx=`; a leftover
quantum of fewer than four characters is an error (Go's `StdEncoding`
requires padding).  Mirrors the error behaviour of
`base64.StdEncoding.DecodeString`. -/
def b64Groups : List Char → Except String (List Nat)
  | [] => .ok []
  | c1 :: c2 :: c3 :: c4 :: rest =>
    match b64Val c1, b64Val c2 with
    | some v1, some v2 =>
      if c3 = '=' then
        if c4 = '=' ∧ rest = [] then
          .ok [v1 * 4 + v2 / 16]
        else .error "illegal base64 data: bad padding"
      else
        match b64Val c3 with
        | some v3 =>
          if c4 = '=' then
            if rest = [] then
              .ok [v1 * 4 + v2 / 16, v2 % 16 * 16 + v3 / 4]
            else .error "illegal base64 data: bad padding"
          else
            match b64Val c4 with
            | some v4 =>
              match b64Groups rest with
              | .ok bs =>
                .ok ((v1 * 4 + v2 / 16) :: (v2 % 16 * 16 + v3 / 4) ::
                      (v3 % 4 * 64 + v4) :: bs)
              | .error e => .error e
            | none => .error "illegal base64 data: bad character"
        | none => .error "illegal base64 data: bad character"
    | _, _ => .error "illegal base64 data: bad character"
  | _ => .error "illegal base64 data: truncated input"

/-- `base64.StdEncoding.DecodeString`: carriage returns and newlines are
ignored, then the input is decoded in 4-character quanta. -/
def base64Decode (s : String) : Except String (List Nat) :=
  b64Groups (s.data.filter fun c => c ≠ '\r' ∧ c ≠ '\n')

/-- Mirrors the Go struct `asn1Signature` (two `*big.Int` fields). -/
structure asn1Signature where
  R : Int
  S : Int
deriving DecidableEq, Repr

/-- DER length octets after the first, as read by Go's `parseTagAndLength`:
the size bound is checked before each additional byte is shifted in. -/
def parseLenBytes : Nat → Nat → List Nat → Except String (Nat × List Nat)
  | 0, acc, rest => .ok (acc, rest)
  | _ + 1, _, [] => .error "truncated length"
  | n + 1, acc, b :: rest =>
    if 2 ^ 23 ≤ acc then .error "length too large"
    else parseLenBytes n (acc * 256 + b) rest

/-- DER length: short form, or minimal long form (indefinite lengths and
non-minimal long forms are rejected, as in Go's `parseTagAndLength`). -/
def parseLength : List Nat → Except String (Nat × List Nat)
  | [] => .error "truncated length"
  | b :: rest =>
    if b < 128 then .ok (b, rest)
    else
      let numBytes := b - 128
      if numBytes = 0 then .error "indefinite length found (not DER)"
      else
        match parseLenBytes numBytes 0 rest with
        | .error e => .error e
        | .ok (l, rest2) =>
          if l < 128 then .error "non-minimal length"
          else .ok (l, rest2)

/-- Parse one DER element with the expected universal tag and constructed
bit, returning its content octets and the remaining input.  High-tag-number
form is collapsed to an error: Go either rejects it structurally or reports
a tag mismatch for these expected tags (16 and 2), so the observable outcome
is an error in both models. -/
def parseElement (expectedTag : Nat) (compound : Bool) :
    List Nat → Except String (List Nat × List Nat)
  | [] => .error "truncated tag"
  | b :: rest =>
    if b % 32 = 31 then .error "tags do not match"
    else
      if b / 64 ≠ 0 ∨ b % 32 ≠ expectedTag ∨ (b / 32 % 2 = 1) ≠ compound then
        .error "tags do not match"
      else
        match parseLength rest with
        | .error e => .error e
        | .ok (len, rest2) =>
          if rest2.length < len then .error "data truncated"
          else .ok (rest2.take len, rest2.drop len)

/-- Go's `parseBigInt` with `checkInteger`: empty contents and non-minimal
encodings are rejected; otherwise the octets are read as a big-endian
two's-complement integer. -/
def parseBigInt (bs : List Nat) : Except String Int :=
  match bs with
  | [] => .error "empty integer"
  | b0 :: tail =>
    if tail = [] then
      .ok (if b0 < 128 then (b0 : Int) else (b0 : Int) - 256)
    else
      let b1 := tail.headD 0
      if (b0 = 0 ∧ b1 < 128) ∨ (b0 = 255 ∧ 128 ≤ b1) then
        .error "integer not minimally-encoded"
      else
        let u : Nat := bs.foldl (fun a x => a * 256 + x) 0
        .ok (if b0 < 128 then (u : Int) else (u : Int) - (256 : Int) ^ bs.length)

/-- `asn1.Unmarshal(asnSig, &parsedSig)` for the struct of two `*big.Int`
fields: a universal constructed SEQUENCE holding two universal primitive
INTEGERs.  Extra octets inside the SEQUENCE after the two integers are
tolerated (Go allows trailing optional fields); octets after the SEQUENCE
are returned as `rest`. -/
def asn1Unmarshal (bs : List Nat) : Except String (asn1Signature × List Nat) :=
  match parseElement 16 true bs with
  | .error e => .error e
  | .ok (content, rest) =>
    match parseElement 2 false content with
    | .error e => .error e
    | .ok (rBytes, content2) =>
      match parseBigInt rBytes with
      | .error e => .error e
      | .ok r =>
        match parseElement 2 false content2 with
        | .error e => .error e
        | .ok (sBytes, _) =>
          match parseBigInt sBytes with
          | .error e => .error e
          | .ok s => .ok (⟨r, s⟩, rest)

/-- `validPayload(data, sig, publicKey)` from `agent/service.go`.
`sha` models `sha256.Sum256` and `verify` models
`ecdsa.Verify(publicKey, digest, R, S)` (the public key is absorbed into
the closure).  Control flow is verbatim: a base64 error or an
`asn1.Unmarshal` error is returned; if unmarshalling succeeds but leaves
trailing bytes, the Go code executes `return false, err` with `err == nil`,
hence `(false, none)` here. -/
def validPayload (sha : List Nat → List Nat) (verify : List Nat → Int → Int → Bool)
    (data : List Nat) (sig : String) : Bool × Option String :=
  match base64Decode sig with
  | .error e => (false, some e)
  | .ok asnSig =>
    match asn1Unmarshal asnSig with
    | .error e => (false, some e)
    | .ok (parsedSig, rest) =>
      if rest.length ≠ 0 then (false, none)
      else (verify (sha data) parsedSig.R parsedSig.S, none)

/-! ## The service: `generateCompletion` and `ChatCompletion` -/

/-- The `s.datasetsInit.Do(...)` block of `generateCompletion`
(`agent/service.go` lines 82-104), made explicit as a state transformer.
It returns the new singleton state, the value of the caller-local `err`
variable after the `Do` call, and whether the build body actually ran.
Faithful details: the closure writes the error into the caller's local
`err`, which `sync.Once` does not persist, so when `done` is already set
the returned error is `none` whatever happened on the first call; on a
`ReadDir` failure `s.datasets` is left untouched, while a failing
`GenerateDatasets` assigns its `nil` result to `s.datasets`. -/
def runOnce (env : Env) (st : OnceState) : OnceState × Option String × Bool :=
  if st.done then (st, none, false)
  else
    match env.readDir with
    | .error e =>
      ({ done := true, datasets := st.datasets },
        some ("error reading files from data directory: " ++ e), true)
    | .ok names =>
      let filenames := names.map (fun n => "data/" ++ n)
      match env.generateDatasets filenames with
      | .error e =>
        ({ done := true, datasets := [] },
          some ("error generating datasets: " ++ e), true)
      | .ok ds => ({ done := true, datasets := ds }, none, true)

/-- Result of the retrieval loop (`agent/service.go` lines 109-177):
which contents were passed to `embedding.Create`, the document contents
injected as context (if any), and whether the loop completed or returned
an error. -/
structure LoopRes where
  embedCalls : List String
  injected : Option String
  out : Except String Unit
deriving Repr

/-- The non-skip body of the retrieval loop (`agent/service.go`
lines 120-176), run on the content of the first qualifying message: embed
it, select the best dataset, and if one was found load its file and record
its contents for injection.  Every path ends the loop: `return err` on a
failure, `break` otherwise.  The two distinct source errors around
`os.Open`/`io.ReadAll` are collapsed into the single `readFile`
collaborator. -/
def loopBody (env : Env) (datasets : List Dataset) (content : String) :
    LoopRes :=
  match env.create content with
  | .error e =>
    { embedCalls := [content], injected := none,
      out := .error ("error creating embedding for user message: " ++ e) }
  | .ok emb =>
    match env.findBestDataset datasets emb with
    | .error _ =>
      { embedCalls := [content], injected := none,
        out := .error "error computing best dataset" }
    | .ok none =>
      { embedCalls := [content], injected := none, out := .ok () }
    | .ok (some ds) =>
      match env.readFile ds.filename with
      | .error e =>
        { embedCalls := [content], injected := none,
          out := .error ("failed to open documents: " ++ e) }
      | .ok contents =>
        { embedCalls := [content], injected := some contents, out := .ok () }

/-- The `for i := len(req.Messages) - 1; i >= 0; i--` loop, applied to the
reversed message list.  Messages whose role is not `"user"` or whose content
is empty are skipped (`continue`); the first qualifying message runs
`loopBody`, which always leaves the loop. -/
def retrieveLoop (env : Env) (datasets : List Dataset) :
    List ChatMessage → LoopRes
  | [] => { embedCalls := [], injected := none, out := .ok () }
  | msg :: rest =>
    if msg.role ≠ "user" then retrieveLoop env datasets rest
    else if msg.content = "" then retrieveLoop env datasets rest
    else loopBody env datasets msg.content

/-- The fixed instructional preamble `lPrePrompt` declared inside
`generateCompletion` (`agent/service.go` lines 148-168). -/
def lPrePrompt : String :=
  "You are a senior Dynamics 365 Finance and Operations (D365 F and O) X++ developer assistant.\n" ++
  "Your role is to assist developers with:\n" ++
  "Writing, reviewing, and debugging X++ code.\n" ++
  "Designing and implementing Data Entities, Classes, Forms, Extensions, Reports, and Workflows.\n" ++
  "Helping with event handlers, Chain of Command (CoC), batch jobs, SysOperations framework, and custom services.\n" ++
  "Offering best practices on performance optimization, security development (like XDS policies), unit testing, and development patterns.\n" ++
  "Assisting with deployment, builds, and package management using LCS and Azure DevOps pipelines.\n\n" ++
  "You must:\n" ++
  "Write code that is clean, modular, and well-documented.\n" ++
  "Explain solutions step-by-step where necessary, assuming the user has an beginner to intermediate understanding of D365 F and O.\n" ++
  "Follow D365 F and O Microsoft official guidelines for extensions (never overlayer unless explicitly asked).\n" ++
  "When possible, recommend event handlers and extensions over customization.\n" ++
  "Help troubleshoot common errors in the build process and runtime, and suggest troubleshooting steps or possible causes.\n" ++
  "Suggest example X++ code snippets, SQL queries, or API call patterns related to D365 F and O when needed.\n" ++
  "Assume the environment is D365 F and O latest version (OneVersion) and uses Visual Studio 2022 as the development environment.\n\n" ++
  "Never guess. If unsure, suggest a next action or direct the user to proper Microsoft Docs references.\n" ++
  "Respond in a detailed, structured format, using headings, bullet points, and code blocks where applicable.\n\n" ++
  "Use the following context when responding to a message.\n"

/-- The synthesized system message (`agent/service.go` lines 170-174). -/
def systemMessage (fileContents : String) : ChatMessage :=
  { role := "system", content := lPrePrompt ++ "Context: " ++ fileContents }

/-- `messages = append(messages, req.Messages...)` after the loop: the
optional synthesized system message followed by the original conversation. -/
def buildMessages (injected : Option String) (orig : List ChatMessage) :
    List ChatMessage :=
  match injected with
  | some fc => systemMessage fc :: orig
  | none => orig

/-- The scanner/write loop (`agent/service.go` lines 193-204).  `wo i`
says whether the i-th `w.Write` call succeeds; each unit costs two write
calls (the unit, then the `"\n"` delimiter).  Returns the bytes actually
written and the error, if any, that made the loop return early. -/
def relay (wo : Nat → Bool) : Nat → List (List Nat) → List Nat × Option String
  | _, [] => ([], none)
  | i, u :: rest =>
    if wo i then
      if wo (i + 1) then
        let r := relay wo (i + 2) rest
        (u ++ 10 :: r.1, r.2)
      else (u, some "failed to write delimiter to stream")
    else ([], some "failed to write to stream")

/-- The full streaming tail of `generateCompletion` (lines 193-214): relay
every scanned unit plus delimiter; if all writes succeeded, inspect
`reader.Err()` — `none` means a clean end of stream, and an `io.EOF`
error is also converted to success (`errors.Is(err, io.EOF)`). -/
def streamRelay (wo : Nat → Bool) (s : CompletionStream) :
    List Nat × Option String :=
  let r := relay wo 0 s.units
  match r.2 with
  | some e => (r.1, some e)
  | none =>
    match s.readErr with
    | none => (r.1, none)
    | some e =>
      if e = "EOF" then (r.1, none)
      else (r.1, some ("failed to read from stream: " ++ e))

/-- Observable outcome of one `generateCompletion` call: the singleton
state afterwards, the bytes written to `w`, the returned error, and a trace
of the collaborator calls the claims reason about. -/
structure GCResult where
  state : OnceState
  output : List Nat
  res : Option String
  buildRan : Bool
  embedCalls : List String
  injected : Option String
  chatCalls : List ChatCompletionsRequest
deriving Repr

/-- `Service.generateCompletion` (`agent/service.go` lines 79-215):
once-guarded corpus build, retrieval loop, context injection, downstream
call, and streaming relay, in source order. -/
def generateCompletion (env : Env) (wo : Nat → Bool) (st : OnceState)
    (req : ChatRequest) : GCResult :=
  match runOnce env st with
  | (st1, some e, ran) =>
    { state := st1, output := [], res := some e, buildRan := ran,
      embedCalls := [], injected := none, chatCalls := [] }
  | (st1, none, ran) =>
    let lr := retrieveLoop env st1.datasets req.messages.reverse
    match lr.out with
    | .error e =>
      { state := st1, output := [], res := some e, buildRan := ran,
        embedCalls := lr.embedCalls, injected := lr.injected, chatCalls := [] }
    | .ok _ =>
      let chatReq : ChatCompletionsRequest :=
        { model := "gpt-4o",
          messages := buildMessages lr.injected req.messages,
          stream := true }
      match env.chatCompletions chatReq with
      | .error e =>
        { state := st1, output := [],
          res := some ("failed to get chat completions stream: " ++ e),
          buildRan := ran, embedCalls := lr.embedCalls,
          injected := lr.injected, chatCalls := [chatReq] }
      | .ok strm =>
        let r := streamRelay wo strm
        { state := st1, output := r.1, res := r.2, buildRan := ran,
          embedCalls := lr.embedCalls, injected := lr.injected,
          chatCalls := [chatReq] }

/-- Request-handler collaborators of `ChatCompletion`: `json.Unmarshal`
of the body into a `ChatRequest`, and the crypto primitives handed to
`validPayload`. -/
structure HandlerEnv where
  parseReq : List Nat → Except String ChatRequest
  sha : List Nat → List Nat
  ecdsaVerify : List Nat → Int → Int → Bool

/-- Observable outcome of one `ChatCompletion` call: the HTTP status
written (200 when the completion succeeded), the singleton state
afterwards, whether the body was parsed as a conversation, and the
`generateCompletion` outcome when it was reached. -/
structure HandlerResult where
  status : Nat
  state : OnceState
  parsed : Bool
  gc : Option GCResult
deriving Repr

/-- `Service.ChatCompletion` (`agent/service.go` lines 41-77): verify the
signature first; a `validPayload` error yields 500, a well-formed but
non-verifying signature yields 401 (`http.Error(..., StatusUnauthorized)`);
only then is the body unmarshalled (400 on failure) and
`generateCompletion` run (500 on error). -/
def ChatCompletion (henv : HandlerEnv) (env : Env) (wo : Nat → Bool)
    (st : OnceState) (sig : String) (body : List Nat) : HandlerResult :=
  match validPayload henv.sha henv.ecdsaVerify body sig with
  | (_, some _) => { status := 500, state := st, parsed := false, gc := none }
  | (false, none) => { status := 401, state := st, parsed := false, gc := none }
  | (true, none) =>
    match henv.parseReq body with
    | .error _ => { status := 400, state := st, parsed := true, gc := none }
    | .ok req =>
      let g := generateCompletion env wo st req
      { status := if g.res = none then 200 else 500,
        state := g.state, parsed := true, gc := some g }

/-! ## Specification-side definitions and concrete instances -/

/-- The qualifying-message predicate of the spec: role `"user"` and
non-empty content. -/
def isUserWithContent (m : ChatMessage) : Bool :=
  m.role == "user" && m.content != ""

/-- Content of the first qualifying message of a list. -/
def firstQualifying (l : List ChatMessage) : Option String :=
  (l.find? isUserWithContent).map ChatMessage.content

/-- Content of the most recent message with role `"user"` and non-empty
content, the message the spec says drives retrieval. -/
def latestUserContent (msgs : List ChatMessage) : Option String :=
  firstQualifying msgs.reverse

/-- The caller-visible byte sequence when every downstream unit is relayed:
each unit followed by the single newline delimiter, in order. -/
def joinUnits (units : List (List Nat)) : List Nat :=
  units.flatMap (fun u => u ++ [10])

/-- Modelled from the spec: `embedding.FindBestDataset` is part of this
repository but not under `src/`; per the spec's Similarity Selector
contract it returns the best-scoring dataset, `none` when the corpus is
empty, with ties broken by earliest enumeration order.  This instance
realises that contract with a constant scoring function, under which the
earliest dataset wins and an empty corpus yields `none`. -/
def specFindBest : List Dataset → Emb → Except String (Option Dataset) :=
  fun ds _ => .ok ds.head?

/-- A writer that never fails. -/
def woAll : Nat → Bool := fun _ => true

/-- The singleton state of a freshly constructed `Service` (`NewService`):
once not yet used, `datasets` nil. -/
def st0 : OnceState := { done := false, datasets := [] }

/-- A singleton state whose once gate has already been used. -/
def stDone : OnceState := { done := true, datasets := [] }

/-- A one-message conversation from a user. -/
def reqHello : ChatRequest :=
  { messages := [{ role := "user", content := "hello" }] }

/-- The spec's three-message example conversation. -/
def reqABC : ChatRequest :=
  { messages := [{ role := "user", content := "a" },
                 { role := "assistant", content := "b" },
                 { role := "user", content := "c" }] }

/-- A conversation with no user message. -/
def reqAsst : ChatRequest :=
  { messages := [{ role := "assistant", content := "b" }] }

/-- Collaborators for a request on which every external call succeeds. -/
def envOK : Env :=
  { readDir := .ok ["doc.md"]
    generateDatasets := fun l => .ok (l.map Dataset.mk)
    create := fun _ => .ok [1]
    findBestDataset := specFindBest
    readFile := fun _ => .ok "CONTENT"
    chatCompletions := fun _ => .ok { units := [[104], [105]], readErr := none } }

/-- Collaborators whose directory enumeration fails (e.g. the `data`
directory is missing), everything else succeeding. -/
def envFailDir : Env :=
  { readDir := .error "no such directory"
    generateDatasets := fun _ => .ok []
    create := fun _ => .ok [1]
    findBestDataset := specFindBest
    readFile := fun _ => .ok "doc"
    chatCompletions := fun _ => .ok { units := [[104, 105]], readErr := none } }

/-- Collaborators whose dataset generation (the embedding batch) fails,
everything else succeeding. -/
def envFailGen : Env :=
  { readDir := .ok ["doc.md"]
    generateDatasets := fun _ => .error "boom"
    create := fun _ => .ok [1]
    findBestDataset := specFindBest
    readFile := fun _ => .ok "doc"
    chatCompletions := fun _ => .ok { units := [[104, 105]], readErr := none } }

/-- A trivial digest instance for concrete evaluations (`sha256.Sum256`
itself is out of scope; `validPayload` only threads the digest through). -/
def shaTrivial : List Nat → List Nat := fun _ => []

/-- An ECDSA-verify instance that accepts, for concrete evaluations of the
structural paths of `validPayload`. -/
def verifyAccept : List Nat → Int → Int → Bool := fun _ _ _ => true

/-- Handler collaborators for concrete evaluations: the body parses to the
empty conversation and the signature scheme is as above. -/
def henvA : HandlerEnv :=
  { parseReq := fun _ => .ok { messages := [] }
    sha := shaTrivial
    ecdsaVerify := verifyAccept }

/-! ## Helper lemmas -/

theorem loopBody_embedCalls (env : Env) (ds : List Dataset) (c : String) :
    (loopBody env ds c).embedCalls = [c] := by
  unfold loopBody
  repeat' split
  all_goals rfl

theorem loopBody_injected_ok (env : Env) (ds : List Dataset) (c : String)
    (h : (loopBody env ds c).injected.isSome) :
    (loopBody env ds c).out = .ok () := by
  unfold loopBody at *
  repeat' split at h
  all_goals first | rfl | simp at h

theorem retrieveLoop_embedCalls (env : Env) (ds : List Dataset) :
    ∀ l : List ChatMessage,
      (retrieveLoop env ds l).embedCalls = (firstQualifying l).toList
  | [] => rfl
  | m :: rest => by
    by_cases h1 : m.role = "user"
    · by_cases h2 : m.content = ""
      · have hq : isUserWithContent m = false := by
          simp [isUserWithContent, h2]
        simp [retrieveLoop, h1, h2, firstQualifying, List.find?_cons, hq]
        simpa [firstQualifying] using retrieveLoop_embedCalls env ds rest
      · have hq : isUserWithContent m = true := by
          simp [isUserWithContent, h1, h2]
        simp [retrieveLoop, h1, h2, firstQualifying, List.find?_cons, hq,
          loopBody_embedCalls]
    · have hq : isUserWithContent m = false := by
        simp [isUserWithContent, h1]
      simp [retrieveLoop, h1, firstQualifying, List.find?_cons, hq]
      simpa [firstQualifying] using retrieveLoop_embedCalls env ds rest

theorem retrieveLoop_injected_ok (env : Env) (ds : List Dataset) :
    ∀ l : List ChatMessage,
      (retrieveLoop env ds l).injected.isSome →
      (retrieveLoop env ds l).out = .ok ()
  | [] => by intro h; rfl
  | m :: rest => by
    by_cases h1 : m.role = "user"
    · by_cases h2 : m.content = ""
      · simpa [retrieveLoop, h1, h2] using retrieveLoop_injected_ok env ds rest
      · simpa [retrieveLoop, h1, h2] using loopBody_injected_ok env ds m.content
    · simpa [retrieveLoop, h1] using retrieveLoop_injected_ok env ds rest

theorem retrieveLoop_noQualifying (env : Env) (ds : List Dataset) :
    ∀ l : List ChatMessage, firstQualifying l = none →
      retrieveLoop env ds l = { embedCalls := [], injected := none, out := .ok () }
  | [] => by intro _; rfl
  | m :: rest => by
    intro h
    have hq : isUserWithContent m = false := by
      by_contra hc
      simp only [Bool.not_eq_false] at hc
      simp [firstQualifying, List.find?_cons, hc] at h
    have hrest : firstQualifying rest = none := by
      simpa [firstQualifying, List.find?_cons, hq] using h
    have h1 : ¬(m.role = "user" ∧ m.content ≠ "") := by
      intro ⟨ha, hb⟩
      simp [isUserWithContent, ha, hb] at hq
    by_cases hr : m.role = "user"
    · have hc : m.content = "" := by
        by_contra hc
        exact h1 ⟨hr, hc⟩
      simpa [retrieveLoop, hr, hc] using retrieveLoop_noQualifying env ds rest hrest
    · simpa [retrieveLoop, hr] using retrieveLoop_noQualifying env ds rest hrest

theorem runOnce_done (env : Env) (st : OnceState) :
    (runOnce env st).1.done = true := by
  unfold runOnce
  split
  · simp_all
  · split
    · rfl
    · dsimp only
      split <;> rfl

theorem runOnce_of_done (env : Env) (st : OnceState) (h : st.done = true) :
    runOnce env st = (st, none, false) := by
  simp [runOnce, h]

theorem gc_state (env : Env) (wo : Nat → Bool) (st : OnceState)
    (req : ChatRequest) :
    (generateCompletion env wo st req).state = (runOnce env st).1 := by
  unfold generateCompletion
  split
  · simp_all
  · dsimp only
    repeat' split
    all_goals simp_all

theorem gc_buildRan (env : Env) (wo : Nat → Bool) (st : OnceState)
    (req : ChatRequest) :
    (generateCompletion env wo st req).buildRan = (runOnce env st).2.2 := by
  unfold generateCompletion
  split
  · simp_all
  · dsimp only
    repeat' split
    all_goals simp_all

theorem gc_embedCalls_err (env : Env) (wo : Nat → Bool) (st : OnceState)
    (req : ChatRequest) (e : String) (h : (runOnce env st).2.1 = some e) :
    (generateCompletion env wo st req).embedCalls = [] := by
  unfold generateCompletion
  split
  · rfl
  · simp_all

theorem gc_embedCalls_ok (env : Env) (wo : Nat → Bool) (st : OnceState)
    (req : ChatRequest) (h : (runOnce env st).2.1 = none) :
    (generateCompletion env wo st req).embedCalls =
      (latestUserContent req.messages).toList := by
  unfold generateCompletion
  split
  · simp_all
  · dsimp only
    repeat' split
    all_goals simp_all [latestUserContent, retrieveLoop_embedCalls]

theorem relay_out_eventually (wo : Nat → Bool) :
    ∀ (units : List (List Nat)) (i : Nat),
      ∃ t, joinUnits units = (relay wo i units).1 ++ t
  | [], _ => ⟨[], rfl⟩
  | u :: rest, i => by
    by_cases h1 : wo i
    · by_cases h2 : wo (i + 1)
      · obtain ⟨t, ht⟩ := relay_out_eventually wo rest (i + 2)
        refine ⟨t, ?_⟩
        simp [relay, h1, h2, joinUnits, List.flatMap_cons, ht]
        simpa [joinUnits] using ht
      · exact ⟨10 :: joinUnits rest, by simp [relay, h1, h2, joinUnits]⟩
    · exact ⟨joinUnits (u :: rest), by simp [relay, h1]⟩

theorem relay_all_ok (wo : Nat → Bool) (h : ∀ j, wo j = true) :
    ∀ (units : List (List Nat)) (i : Nat),
      relay wo i units = (joinUnits units, none)
  | [], _ => by simp [relay, joinUnits]
  | u :: rest, i => by
    simp [relay, h i, h (i + 1), joinUnits, relay_all_ok wo h rest (i + 2)]

theorem relay_none_full (wo : Nat → Bool) :
    ∀ (units : List (List Nat)) (i : Nat),
      (relay wo i units).2 = none → (relay wo i units).1 = joinUnits units
  | [], _ => by simp [relay, joinUnits]
  | u :: rest, i => by
    by_cases h1 : wo i
    · by_cases h2 : wo (i + 1)
      · intro h
        have hr := relay_none_full wo rest (i + 2)
          (by simpa [relay, h1, h2] using h)
        simp [relay, h1, h2, joinUnits, hr]
      · intro h
        simp [relay, h1, h2] at h
    · intro h
      simp [relay, h1] at h

theorem streamRelay_fst (wo : Nat → Bool) (s : CompletionStream) :
    (streamRelay wo s).1 = (relay wo 0 s.units).1 := by
  unfold streamRelay
  dsimp only
  repeat' split
  all_goals rfl

theorem streamRelay_none (wo : Nat → Bool) (s : CompletionStream)
    (h : (streamRelay wo s).2 = none) : (relay wo 0 s.units).2 = none := by
  unfold streamRelay at h
  dsimp only at h
  repeat' split at h
  all_goals first | assumption | simp at h

/-! ## Claims -/

/-- C1 (code bug demonstration): the spec says a failed one-time corpus
build is recorded and returned to every caller, past and future.  The code
stores the build error only in the first caller's local `err` variable, so
a later call finds the once gate used, sees `err == nil`, and proceeds with
a nil dataset slice: here the first call returns the enumeration error, yet
the second call returns no error and forwards the conversation downstream. -/
theorem c1_first_failure_not_seen_by_later_callers :
    (generateCompletion envFailDir woAll st0 reqHello).res =
      some "error reading files from data directory: no such directory" ∧
    (generateCompletion envFailDir woAll
        (generateCompletion envFailDir woAll st0 reqHello).state reqHello).res
      = none ∧
    (generateCompletion envFailDir woAll
        (generateCompletion envFailDir woAll st0 reqHello).state
        reqHello).chatCalls =
      [{ model := "gpt-4o",
         messages := [{ role := "user", content := "hello" }],
         stream := true }] :=
  ⟨rfl, rfl, rfl⟩

/-- C2 (amended): a base64 decoding failure or a malformed ASN.1 structure
makes `validPayload` return that non-nil error; but trailing unconsumed
bytes after a well-formed structure yield `(false, none)` — the same result
as a well-formed signature that does not verify — because the Go code
returns the already-nil `err` in that branch. -/
theorem c2_structural_failures (sha : List Nat → List Nat)
    (verify : List Nat → Int → Int → Bool) (data : List Nat) (sig : String) :
    (∀ e, base64Decode sig = .error e →
      validPayload sha verify data sig = (false, some e)) ∧
    (∀ bs e, base64Decode sig = .ok bs → asn1Unmarshal bs = .error e →
      validPayload sha verify data sig = (false, some e)) ∧
    (∀ bs ps rest, base64Decode sig = .ok bs →
      asn1Unmarshal bs = .ok (ps, rest) → rest ≠ [] →
      validPayload sha verify data sig = (false, none)) := by
  refine ⟨?_, ?_, ?_⟩
  · intro e h
    simp [validPayload, h]
  · intro bs e h1 h2
    simp [validPayload, h1, h2]
  · intro bs ps rest h1 h2 h3
    simp [validPayload, h1, h2, h3]

/-- C2 counterexample: `"MAYCAQECAQEA"` is well-formed base64 whose decoding
is a well-formed ASN.1 signature followed by one trailing byte; the claim
demands a non-nil error, but `validPayload` returns `(false, none)`.  The
digest and verify instances are irrelevant: this branch returns before
either is consulted, for every choice of them. -/
theorem c2_counterexample :
    base64Decode "MAYCAQECAQEA" = .ok [48, 6, 2, 1, 1, 2, 1, 1, 0] ∧
    asn1Unmarshal [48, 6, 2, 1, 1, 2, 1, 1, 0] =
      .ok ({ R := 1, S := 1 }, [0]) ∧
    validPayload shaTrivial verifyAccept [] "MAYCAQECAQEA" = (false, none) :=
  ⟨rfl, rfl, rfl⟩

/-- C2 witness: a concrete malformed base64 signature takes the error
branch of `c2_structural_failures`. -/
theorem c2_witness :
    validPayload shaTrivial verifyAccept [] "!" =
      (false, some "illegal base64 data: truncated input") :=
  (c2_structural_failures shaTrivial verifyAccept [] "!").1 _ rfl

/-- C3 counterexample: a malformed signature (illegal base64) makes the
handler answer 500 (internal server error), not the 401 unauthorized
response the claim demands for both failure kinds. -/
theorem c3_counterexample :
    (∃ e, base64Decode "!" = .error e) ∧
    (ChatCompletion henvA envOK woAll st0 "!" []).status = 500 ∧
    ¬(ChatCompletion henvA envOK woAll st0 "!" []).status = 401 :=
  ⟨⟨"illegal base64 data: truncated input", rfl⟩, rfl, by decide⟩

/-- C3 (amended): the handler terminates without proceeding in both failure
cases, but with different statuses: a `validPayload` error (malformed
signature) yields 500, while a well-formed signature that does not verify
yields 401 unauthorized. -/
theorem c3_status_by_failure_kind (henv : HandlerEnv) (env : Env)
    (wo : Nat → Bool) (st : OnceState) (sig : String) (body : List Nat) :
    (∀ b e, validPayload henv.sha henv.ecdsaVerify body sig = (b, some e) →
      (ChatCompletion henv env wo st sig body).status = 500 ∧
      (ChatCompletion henv env wo st sig body).gc = none) ∧
    (validPayload henv.sha henv.ecdsaVerify body sig = (false, none) →
      (ChatCompletion henv env wo st sig body).status = 401 ∧
      (ChatCompletion henv env wo st sig body).gc = none) := by
  constructor
  · intro b e h
    simp [ChatCompletion, h]
  · intro h
    simp [ChatCompletion, h]

/-- C3 witness: a concrete malformed signature discharges the error case of
`c3_status_by_failure_kind`. -/
theorem c3_witness :
    (ChatCompletion henvA envOK woAll st0 "*" []).status = 500 ∧
    (ChatCompletion henvA envOK woAll st0 "*" []).gc = none :=
  (c3_status_by_failure_kind henvA envOK woAll st0 "*" []).1 false
    "illegal base64 data: truncated input" rfl

/-- C4: retrieval embeds at most one message's content, and anything it
embeds is exactly the content of the most recent message with role
`"user"` and non-empty content; when the once gate is already used (so the
retrieval loop is reached), exactly that content — and nothing else — is
passed to the embedding function. -/
theorem c4_embeds_only_latest_user (env : Env) (wo : Nat → Bool)
    (st : OnceState) (req : ChatRequest) :
    ((generateCompletion env wo st req).embedCalls = [] ∨
      (generateCompletion env wo st req).embedCalls =
        (latestUserContent req.messages).toList) ∧
    (st.done = true →
      (generateCompletion env wo st req).embedCalls =
        (latestUserContent req.messages).toList) := by
  constructor
  · rcases h : (runOnce env st).2.1 with _ | e
    · exact Or.inr (gc_embedCalls_ok env wo st req h)
    · exact Or.inl (gc_embedCalls_err env wo st req e h)
  · intro hd
    have h : (runOnce env st).2.1 = none := by
      rw [runOnce_of_done env st hd]
    exact gc_embedCalls_ok env wo st req h

/-- C4 witness: on the spec's example conversation
`[{user,a}, {assistant,b}, {user,c}]`, only `"c"` is embedded. -/
theorem c4_witness :
    latestUserContent reqABC.messages = some "c" ∧
    (generateCompletion envOK woAll stDone reqABC).embedCalls = ["c"] :=
  ⟨rfl, (c4_embeds_only_latest_user envOK woAll stDone reqABC).2 rfl⟩

theorem retrieveLoop_out_ok_of_injected (env : Env) (ds : List Dataset)
    (l : List ChatMessage) (fc : String)
    (h : (retrieveLoop env ds l).injected = some fc) :
    (retrieveLoop env ds l).out = .ok () :=
  retrieveLoop_injected_ok env ds l (by simp [h])

/-- C5: at most one downstream chat call is made, and whenever document
content was loaded for injection, the forwarded conversation is exactly the
single synthesized system message (fixed preamble plus the loaded content)
followed by all original messages in their original order. -/
theorem c5_at_most_one_injection (env : Env) (wo : Nat → Bool)
    (st : OnceState) (req : ChatRequest) :
    (generateCompletion env wo st req).chatCalls.length ≤ 1 ∧
    ∀ fc, (generateCompletion env wo st req).injected = some fc →
      (generateCompletion env wo st req).chatCalls =
        [{ model := "gpt-4o",
           messages := systemMessage fc :: req.messages,
           stream := true }] := by
  unfold generateCompletion
  split
  · refine ⟨by simp, ?_⟩
    intro fc h
    simp at h
  · dsimp only
    split
    · refine ⟨by simp, ?_⟩
      intro fc h
      rename_i heq
      dsimp only at h
      rw [retrieveLoop_out_ok_of_injected _ _ _ _ h] at heq
      simp at heq
    · split
      · refine ⟨by simp, ?_⟩
        intro fc h
        dsimp only at h ⊢
        rw [h]
        simp [buildMessages, systemMessage]
      · refine ⟨by simp, ?_⟩
        intro fc h
        dsimp only at h ⊢
        rw [h]
        simp [buildMessages, systemMessage]

/-- C5 witness: a fully successful request injects the loaded content
exactly once, before the original message. -/
theorem c5_witness :
    (generateCompletion envOK woAll st0 reqHello).injected = some "CONTENT" ∧
    (generateCompletion envOK woAll st0 reqHello).chatCalls =
      [{ model := "gpt-4o",
         messages := systemMessage "CONTENT" :: reqHello.messages,
         stream := true }] :=
  ⟨rfl, (c5_at_most_one_injection envOK woAll st0 reqHello).2 "CONTENT" rfl⟩

/-- C6: the bytes written to the caller are always an initial segment of
the downstream units each followed by the newline delimiter, in order
(nothing is rolled back); when every write succeeds, everything is
forwarded and the relay ends with `nil` exactly when downstream ended
cleanly (or with `io.EOF`); and a `nil` result is only ever produced with
the complete output written. -/
theorem c6_relay_property (wo : Nat → Bool) (s : CompletionStream) :
    (∃ t, joinUnits s.units = (streamRelay wo s).1 ++ t) ∧
    ((∀ j, wo j = true) →
      (streamRelay wo s).1 = joinUnits s.units ∧
      ((streamRelay wo s).2 = none ↔
        s.readErr = none ∨ s.readErr = some "EOF")) ∧
    ((streamRelay wo s).2 = none →
      (streamRelay wo s).1 = joinUnits s.units) := by
  refine ⟨?_, ?_, ?_⟩
  · obtain ⟨t, ht⟩ := relay_out_eventually wo s.units 0
    refine ⟨t, ?_⟩
    rw [streamRelay_fst]
    exact ht
  · intro h
    have hr := relay_all_ok wo h s.units 0
    constructor
    · rw [streamRelay_fst, hr]
    · unfold streamRelay
      dsimp only
      simp only [hr]
      cases hre : s.readErr with
      | none => simp
      | some e =>
        by_cases he : e = "EOF" <;> simp [he]
  · intro h
    rw [streamRelay_fst]
    exact relay_none_full wo s.units 0 (streamRelay_none wo s h)

/-- C6 witness: two units with an `io.EOF` terminal error relay completely
and successfully when the writer never fails. -/
theorem c6_witness :
    (streamRelay woAll { units := [[104], [105]], readErr := some "EOF" }).1 =
      [104, 10, 105, 10] ∧
    (streamRelay woAll { units := [[104], [105]], readErr := some "EOF" }).2 =
      none := by
  have h := (c6_relay_property woAll
    { units := [[104], [105]], readErr := some "EOF" }).2.1 (fun _ => rfl)
  exact ⟨h.1, h.2.mpr (Or.inr rfl)⟩

/-- C7: when the signature fails verification (for either reason —
`validPayload` returning an error or returning false), the handler never
parses the body as a conversation, never runs `generateCompletion` (hence
never calls the embedding or completion collaborators), and leaves the
singleton state untouched. -/
theorem c7_rejected_before_any_call (henv : HandlerEnv) (env : Env)
    (wo : Nat → Bool) (st : OnceState) (sig : String) (body : List Nat)
    (h : (validPayload henv.sha henv.ecdsaVerify body sig).1 = false) :
    (ChatCompletion henv env wo st sig body).parsed = false ∧
    (ChatCompletion henv env wo st sig body).gc = none ∧
    (ChatCompletion henv env wo st sig body).state = st := by
  unfold ChatCompletion
  split
  all_goals try exact ⟨rfl, rfl, rfl⟩
  rename_i heq
  rw [heq] at h
  simp at h

/-- C7 witness: a request with an empty signature header is rejected
before any parsing or outbound call. -/
theorem c7_witness :
    (ChatCompletion henvA envOK woAll st0 "" []).parsed = false ∧
    (ChatCompletion henvA envOK woAll st0 "" []).gc = none ∧
    (ChatCompletion henvA envOK woAll st0 "" []).state = st0 :=
  c7_rejected_before_any_call henvA envOK woAll st0 "" [] rfl

/-- C8: when no message has role `"user"` with non-empty content, nothing
is embedded, no context is injected, and any conversation forwarded
downstream is exactly the original message list. -/
theorem c8_forwarded_unchanged_without_user (env : Env) (wo : Nat → Bool)
    (st : OnceState) (req : ChatRequest)
    (h : ∀ m ∈ req.messages, m.role ≠ "user" ∨ m.content = "") :
    (generateCompletion env wo st req).embedCalls = [] ∧
    (generateCompletion env wo st req).injected = none ∧
    ∀ creq ∈ (generateCompletion env wo st req).chatCalls,
      creq.messages = req.messages := by
  have hall : ∀ m ∈ req.messages.reverse, isUserWithContent m = false := by
    intro m hm
    rcases h m (List.mem_reverse.mp hm) with h1 | h2
    · simp [isUserWithContent, h1]
    · simp [isUserWithContent, h2]
  have hq : firstQualifying req.messages.reverse = none := by
    have hfind : req.messages.reverse.find? isUserWithContent = none :=
      List.find?_eq_none.mpr (fun m hm => by simp [hall m hm])
    simp [firstQualifying, hfind]
  rcases hro : runOnce env st with ⟨st1, oe, ran⟩
  cases oe with
  | some e =>
    refine ⟨?_, ?_, ?_⟩
    · simp [generateCompletion, hro]
    · simp [generateCompletion, hro]
    · intro creq hc
      simp [generateCompletion, hro] at hc
  | none =>
    have hloop := retrieveLoop_noQualifying env st1.datasets
      req.messages.reverse hq
    refine ⟨?_, ?_, ?_⟩
    · simp [generateCompletion, hro, hloop]
      split <;> rfl
    · simp [generateCompletion, hro, hloop]
      split <;> rfl
    · intro creq hc
      simp only [generateCompletion, hro, hloop] at hc
      split at hc
      all_goals
        simp at hc
        simp [hc, buildMessages]

/-- C8 witness: a conversation holding only an assistant message embeds
nothing and injects nothing. -/
theorem c8_witness :
    (generateCompletion envOK woAll st0 reqAsst).embedCalls = [] ∧
    (generateCompletion envOK woAll st0 reqAsst).injected = none := by
  have h := c8_forwarded_unchanged_without_user envOK woAll st0 reqAsst
    (by decide)
  exact ⟨h.1, h.2.1⟩

/-- C9 counterexample: the claim says all callers observe the same single
outcome of the one-time build.  When the build fails, the first caller
observes the failure but a second caller observes success (no error),
because the recorded error lives only in the first caller's local
variable. -/
theorem c9_counterexample :
    (generateCompletion envFailGen woAll st0 reqHello).buildRan = true ∧
    (generateCompletion envFailGen woAll st0 reqHello).res =
      some "error generating datasets: boom" ∧
    (generateCompletion envFailGen woAll
        (generateCompletion envFailGen woAll st0 reqHello).state
        reqHello).buildRan = false ∧
    (generateCompletion envFailGen woAll
        (generateCompletion envFailGen woAll st0 reqHello).state
        reqHello).res = none :=
  ⟨rfl, rfl, rfl, rfl⟩

/-- C9 (amended): the build logic runs at most once — after any call the
once gate is used, a subsequent call never re-runs the build, and the
dataset list never changes; but on failure only the first caller observes
the recorded error. -/
theorem c9_build_at_most_once (env : Env) (wo : Nat → Bool) (st : OnceState)
    (req1 req2 : ChatRequest) :
    (generateCompletion env wo st req1).state.done = true ∧
    (generateCompletion env wo
        (generateCompletion env wo st req1).state req2).buildRan = false ∧
    (generateCompletion env wo
        (generateCompletion env wo st req1).state req2).state.datasets =
      (generateCompletion env wo st req1).state.datasets := by
  have h1 : (generateCompletion env wo st req1).state.done = true := by
    rw [gc_state]
    exact runOnce_done env st
  refine ⟨h1, ?_, ?_⟩
  · rw [gc_buildRan, runOnce_of_done _ _ h1]
  · rw [gc_state, runOnce_of_done _ _ h1]

/-- C10: `validPayload` is a total function of its inputs (it is defined
for every byte list and signature string), and whenever it returns `true`
the accompanying error is nil. -/
theorem c10_valid_implies_nil_error (sha : List Nat → List Nat)
    (verify : List Nat → Int → Int → Bool) (data : List Nat) (sig : String)
    (h : (validPayload sha verify data sig).1 = true) :
    (validPayload sha verify data sig).2 = none := by
  rcases hb : base64Decode sig with e | bs
  · simp [validPayload, hb] at h
  · rcases ha : asn1Unmarshal bs with e | ⟨ps, rest⟩
    · simp [validPayload, hb, ha] at h
    · by_cases hr : rest.length = 0
      · simp [validPayload, hb, ha, hr]
      · simp [validPayload, hb, ha, hr] at h

/-- C10 witness: a well-formed signature over any payload reaches the
verification step, and the accepting verify instance makes `validPayload`
return `true` — with a nil error. -/
theorem c10_witness :
    (validPayload shaTrivial verifyAccept [] "MAYCAQECAQE=").2 = none :=
  c10_valid_implies_nil_error shaTrivial verifyAccept [] "MAYCAQECAQE=" rfl
